import Mathlib

/-!
Shallow embedding of `src/rcore/src/core.rs` (the command-resolution core of
the rair session shell).  Pure state is modelled by the structure `Core`;
registered operations are state transformers indexed by an environment
`env : Nat → CmdFunctions` (mirroring the `&'static CmdFunctions` pointers of
the source).  Output sinks are in-memory chunk lists (the `Writer` buffers);
a chunk records whether the text was emitted through `Paint::rgb` and with
which color, so that coloring decisions remain observable.
Fallible code (the `self.color_palette[5]` index, which panics when the
palette is too short) is modelled with `Option`.
-/

/-- One piece of text written to a sink: either plain text, or text rendered
through `Paint::rgb` with an explicit (r,g,b) color. -/
inductive Chunk where
  | plain (s : String)
  | colored (rgb : Nat × Nat × Nat) (s : String)
deriving DecidableEq, Repr

/-- Render a chunk list the way the tests observe it (with `Paint::disable()`,
colors render as their bare text). -/
def renderPlain (cs : List Chunk) : String :=
  cs.foldl (fun acc c => acc ++ (match c with | .plain s => s | .colored _ s => s)) ""

/-- Addressing mode of the session (`AddrMode` in the source). -/
inductive AddrMode where
  | Phy
  | Vir
deriving DecidableEq, Repr

/-- Levenshtein edit distance on character lists, phrased with an explicit
recursion budget so the definition reduces by computation; every recursive
call strictly shrinks the combined length, so a budget of
`xs.length + ys.length + 1` is never exhausted. -/
def levDistAux : Nat → List Char → List Char → Nat
  | 0, _, _ => 0
  | _ + 1, [], ys => ys.length
  | _ + 1, x :: xs, [] => (x :: xs).length
  | n + 1, x :: xs, y :: ys =>
    if x = y then levDistAux n xs ys
    else 1 + min (levDistAux n xs ys)
      (min (levDistAux n (x :: xs) ys) (levDistAux n xs (y :: ys)))

/-- Levenshtein edit distance on character lists, used by the spelling index. -/
def levDist (xs ys : List Char) : Nat :=
  levDistAux (xs.length + ys.length + 1) xs ys

namespace SpellTree

/-- Modelled from the spec: `rtrees::bktree::SpellTree::find` is not under
`src/`; per the spec its combined query `find(name, max_distance)` returns the
pair (exact set, similar set): the exact set holds the payloads of every entry
whose name equals the query (at most one under the registry invariant), and
the similar set holds the names of all entries within edit distance
`max_distance` of the query excluding exact matches, ordered by increasing
distance with ties broken by insertion order; `max_distance = 0` yields an
empty similar set.  The registry itself is the insertion-ordered association
list `cmds`. -/
def find (cmds : List (String × Nat)) (q : String) (tol : Nat) :
    List Nat × List String :=
  ((cmds.filter (fun p => p.1 = q)).map (fun p => p.2),
   (List.range tol).flatMap
     (fun i => (cmds.filter (fun p => levDist p.1.data q.data = i + 1)).map
       (fun p => p.1)))

end SpellTree

/-- The session state (`struct Core`).  The line-editor, io layer and
app-info fields take no part in the claims and are external collaborators;
command payloads are identified by `Nat` ids resolved through an environment,
mirroring the `&'static CmdFunctions` pointers. -/
structure Core where
  stdout : List Chunk
  stderr : List Chunk
  mode : AddrMode
  loc : Nat
  commands : List (String × Nat)
  color_palette : List (Nat × Nat × Nat)
deriving DecidableEq, Repr

/-- A registered operation (`struct CmdFunctions`): a `run` entry point taking
the session and the argument list, and a `help` entry point taking the
session. -/
structure CmdFunctions where
  run : Core → List String → Core
  help : Core → Core

/-- Modelled from the spec: `helper::error_msg` is not under `src/`; per the
spec's diagnostic text format it writes two lines to the diagnostic sink:
`Error: <title>` then the message. -/
def error_msg (c : Core) (title : String) (msg : List Chunk) : Core :=
  { c with stderr := c.stderr ++ [Chunk.plain ("Error: " ++ title ++ "\n")]
      ++ msg ++ [Chunk.plain "\n"] }

namespace Core

/-- `Core::set_loc`. -/
def set_loc (c : Core) (l : Nat) : Core :=
  { c with loc := l }

/-- `Core::get_loc`. -/
def get_loc (c : Core) : Nat :=
  c.loc

/-- `Core::add_command`: reject a duplicate name with a diagnostic, otherwise
insert the binding. -/
def add_command (c : Core) (command_name : String) (functionality : Nat) :
    Core :=
  let exact := (SpellTree.find c.commands command_name 0).1
  if exact.isEmpty then
    { c with commands := c.commands ++ [(command_name, functionality)] }
  else
    error_msg c "Cannot add this command."
      [Chunk.plain ("Command " ++ command_name ++ " already existed.")]

/-- `Core::command_not_found`: emit the not-found diagnostic, then the
suggestion line when the similar set is non-empty, coloring each suggestion
with palette slot 5 (`none` models the panic of `self.color_palette[5]` on a
short palette). -/
def command_not_found (c : Core) (command : String) : Option Core :=
  let c1 := error_msg c "Execution failed"
      [Chunk.plain ("Command " ++ command ++ " is not found.")]
  let similar := (SpellTree.find c1.commands command 2).2
  match similar with
  | [] => some c1
  | s0 :: rest =>
    match c1.color_palette.get? 5 with
    | none => none
    | some rgb =>
      some { c1 with stderr := c1.stderr
          ++ [Chunk.plain "Similar command: ", Chunk.colored rgb s0]
          ++ rest.flatMap (fun s => [Chunk.plain ", ", Chunk.colored rgb s])
          ++ [Chunk.plain ".\n"] }

/-- `Core::run`: resolve with maximum distance 2 and invoke the first exact
entry's `run`, or report command-not-found. -/
def run (env : Nat → CmdFunctions) (c : Core) (command : String)
    (args : List String) : Option Core :=
  match (SpellTree.find c.commands command 2).1 with
  | [] => command_not_found c command
  | op :: _ => some ((env op).run c args)

/-- `Core::run_at`: swap the cursor to `at`, dispatch, restore the captured
pre-call cursor. -/
def run_at (env : Nat → CmdFunctions) (c : Core) (command : String)
    (args : List String) (at_ : Nat) : Option Core :=
  match run env { c with loc := at_ } command args with
  | none => none
  | some c2 => some { c2 with loc := c.loc }

/-- `Core::help`: same resolution as `run`, invoking the operation's `help`
entry point. -/
def help (env : Nat → CmdFunctions) (c : Core) (command : String) :
    Option Core :=
  match (SpellTree.find c.commands command 2).1 with
  | [] => command_not_found c command
  | op :: _ => some ((env op).help c)

/-- `Core::init_colors`: push the nine palette entries. -/
def init_colors (c : Core) : Core :=
  { c with color_palette := c.color_palette ++
      [(0x58, 0x68, 0x75), (0xb5, 0x89, 0x00), (0xcb, 0x4b, 0x16),
       (0xdc, 0x32, 0x2f), (0xd3, 0x36, 0x82), (0x6c, 0x71, 0xc4),
       (0x26, 0x8b, 0xd2), (0x2a, 0xa1, 0x98), (0x85, 0x99, 0x00)] }

/-- Ids standing for the `&'static CmdFunctions` of the startup registrations
(`MAPFUNCTION` = 0, `LISTMAPFUNCTION` = 1, `MODEFUNCTION` = 2,
`PRINTHEXFUNCTION` = 3, `SEEKFUNCTION` = 4, `UNMAPFUNCTION` = 5). -/
def startupRegistrations : List (String × Nat) :=
  [("map", 0), ("maps", 1), ("mode", 2), ("m", 2), ("printHex", 3),
   ("px", 3), ("seek", 4), ("s", 4), ("unmap", 5), ("um", 5)]

/-- `Core::load_commands`. -/
def load_commands (c : Core) : Core :=
  startupRegistrations.foldl (fun c p => add_command c p.1 p.2) c

/-- `Core::default`: empty sinks, physical mode, zero cursor, empty registry
and palette. -/
def mkDefault : Core :=
  { stdout := [], stderr := [], mode := AddrMode.Phy, loc := 0,
    commands := [], color_palette := [] }

/-- `Core::new`: default state, startup registrations, palette initialization
(history loading is an external collaborator and has no modelled effect). -/
def new : Core :=
  init_colors (load_commands mkDefault)

end Core

/-! Shared fixtures for concrete evaluations. -/

/-- An environment whose operations leave the session untouched. -/
def envId : Nat → CmdFunctions :=
  fun _ => ⟨fun c _ => c, fun c => c⟩

/-- An environment whose operations clobber the cursor. -/
def envClobber : Nat → CmdFunctions :=
  fun _ => ⟨fun c _ => Core.set_loc c 999, fun c => Core.set_loc c 999⟩

/-- A session with an empty registry and a nonzero cursor. -/
def coreEmpty : Core :=
  { Core.mkDefault with loc := 7 }

/-- A session whose registry contains only `seek` (alias `s`), with the full
startup palette. -/
def coreSeek : Core :=
  { Core.mkDefault with
    loc := 7
    commands := [("seek", 4), ("s", 4)]
    color_palette := (Core.init_colors Core.mkDefault).color_palette }

/-- A session whose registry contains only `seek` (alias `s`) but whose
palette is empty. -/
def coreNoPal : Core :=
  { Core.mkDefault with commands := [("seek", 4), ("s", 4)] }

/-! Shared lemmas. -/

/-- The exact set of a `find` query does not depend on the distance bound. -/
theorem find_fst_eq (cmds : List (String × Nat)) (q : String) (tol : Nat) :
    (SpellTree.find cmds q tol).1 =
      (cmds.filter (fun p => p.1 = q)).map (fun p => p.2) :=
  rfl

/-- C1 helper: none needed beyond the definition. -/
theorem run_commands_invariant (env : Nat → CmdFunctions) (c : Core)
    (command : String) (args : List String) :
    Core.run env c command args =
      match (SpellTree.find c.commands command 2).1 with
      | [] => Core.command_not_found c command
      | op :: _ => some ((env op).run c args) :=
  rfl

/-- C1: for every command string, argument list and address, whenever
`run_at` returns, the session's location cursor equals its pre-call value,
regardless of what the dispatched operation set the cursor to internally. -/
theorem run_at_restores_loc (env : Nat → CmdFunctions) (c : Core)
    (command : String) (args : List String) (at_ : Nat) (c' : Core)
    (h : Core.run_at env c command args at_ = some c') :
    c'.loc = c.loc := by
  unfold Core.run_at at h
  cases hr : Core.run env { c with loc := at_ } command args with
  | none => rw [hr] at h; cases h
  | some c2 => rw [hr] at h; cases h; rfl

/-- C1 witness: a concrete `run_at` call (with an operation that clobbers the
cursor) returns with the cursor restored to the pre-call value 7. -/
theorem run_at_restores_loc_witness :
    ((Core.run_at envClobber coreSeek "seek" [] 5).getD Core.mkDefault).loc =
      coreSeek.loc :=
  run_at_restores_loc envClobber coreSeek "seek" [] 5
    ((Core.run_at envClobber coreSeek "seek" [] 5).getD Core.mkDefault)
    (by decide)

/-- C10: a successful registration is silent: when the name is not yet
present, `add_command` appends the binding to the registry and changes no
other session state (in particular neither output sink). -/
theorem add_command_fresh (c : Core) (name : String) (f : Nat)
    (h : (SpellTree.find c.commands name 0).1 = []) :
    Core.add_command c name f =
      { c with commands := c.commands ++ [(name, f)] } := by
  unfold Core.add_command
  simp [h]

/-- C10 witness: registering `seek` in an empty registry produces exactly the
one-binding registry with all other fields untouched. -/
theorem add_command_fresh_witness :
    Core.add_command coreEmpty "seek" 4 =
      { coreEmpty with commands := coreEmpty.commands ++ [("seek", 4)] } :=
  add_command_fresh coreEmpty "seek" 4 (by decide)

/-- A session whose registry binds `s` to operation id 0. -/
def coreS : Core :=
  { Core.mkDefault with commands := [("s", 0)] }

/-- String-append regrouping: merging adjacent literal pieces around an
interpolated middle. -/
theorem append_glue (a b c d e f n : String) (hab : a ++ b = e)
    (hcd : c ++ d = f) : a ++ (b ++ n ++ c) ++ d = e ++ n ++ f := by
  subst hab
  subst hcd
  simp [String.append_assoc]

/-- C2: re-registering an already-bound name does not insert the new
operation, emits exactly the two diagnostic lines
`Error: Cannot add this command.` and `Command <name> already existed.`, and
leaves the prior binding intact: a subsequent run of that name still invokes
the originally bound operation. -/
theorem add_command_duplicate (env : Nat → CmdFunctions) (c : Core)
    (name : String) (x y : Nat) (xs : List Nat) (args : List String)
    (h : (SpellTree.find c.commands name 0).1 = x :: xs) :
    (Core.add_command c name y).commands = c.commands ∧
    (Core.add_command c name y).stdout = c.stdout ∧
    (Core.add_command c name y).stderr = c.stderr ++
      [Chunk.plain "Error: Cannot add this command.\n",
       Chunk.plain ("Command " ++ name ++ " already existed."),
       Chunk.plain "\n"] ∧
    renderPlain
      [Chunk.plain "Error: Cannot add this command.\n",
       Chunk.plain ("Command " ++ name ++ " already existed."),
       Chunk.plain "\n"] =
      "Error: Cannot add this command.\nCommand " ++ name ++
        " already existed.\n" ∧
    Core.run env (Core.add_command c name y) name args =
      some ((env x).run (Core.add_command c name y) args) := by
  have hdup : Core.add_command c name y =
      error_msg c "Cannot add this command."
        [Chunk.plain ("Command " ++ name ++ " already existed.")] := by
    unfold Core.add_command
    simp [h]
  have hrp : renderPlain
      [Chunk.plain "Error: Cannot add this command.\n",
       Chunk.plain ("Command " ++ name ++ " already existed."),
       Chunk.plain "\n"] =
      "Error: Cannot add this command.\n" ++
        ("Command " ++ name ++ " already existed.") ++ "\n" := by
    simp [renderPlain]
  refine ⟨by rw [hdup]; rfl, by rw [hdup]; rfl, ?_, ?_, ?_⟩
  · rw [hdup]
    unfold error_msg
    simp
  · rw [hrp]
    exact append_glue _ _ _ _ _ _ name (by decide) (by decide)
  · have hcmds : (Core.add_command c name y).commands = c.commands := by
      rw [hdup]; rfl
    unfold Core.run
    rw [hcmds, find_fst_eq]
    rw [find_fst_eq] at h
    rw [h]

/-- C2 witness: with `s` bound to operation 0, registering `s` with operation
1 leaves the registry untouched, emits exactly the documented diagnostic, and
a subsequent `run "s"` still invokes operation 0. -/
theorem add_command_duplicate_witness :
    (Core.add_command coreS "s" 1).commands = coreS.commands ∧
    (Core.add_command coreS "s" 1).stdout = coreS.stdout ∧
    (Core.add_command coreS "s" 1).stderr = coreS.stderr ++
      [Chunk.plain "Error: Cannot add this command.\n",
       Chunk.plain ("Command " ++ "s" ++ " already existed."),
       Chunk.plain "\n"] ∧
    renderPlain
      [Chunk.plain "Error: Cannot add this command.\n",
       Chunk.plain ("Command " ++ "s" ++ " already existed."),
       Chunk.plain "\n"] =
      "Error: Cannot add this command.\nCommand " ++ "s" ++
        " already existed.\n" ∧
    Core.run envId (Core.add_command coreS "s" 1) "s" [] =
      some ((envId 0).run (Core.add_command coreS "s" 1) []) :=
  add_command_duplicate envId coreS "s" 0 1 [] [] (by decide)

/-- The registry built by a sequence of `add_command` calls starting from the
empty registry. -/
def registryOf (regs : List (String × Nat)) : Core :=
  regs.foldl (fun c p => Core.add_command c p.1 p.2) Core.mkDefault

/-- An exact `find` query returns the empty set precisely when no registered
entry carries the queried name. -/
theorem find_exact_nil_iff (cmds : List (String × Nat)) (q : String)
    (tol : Nat) :
    (SpellTree.find cmds q tol).1 = [] ↔ ∀ p ∈ cmds, p.1 ≠ q := by
  rw [find_fst_eq]
  simp [List.filter_eq_nil_iff]

/-- `add_command` preserves distinctness of registered names. -/
theorem add_command_nodup (c : Core) (n : String) (f : Nat)
    (h : (c.commands.map Prod.fst).Nodup) :
    ((Core.add_command c n f).commands.map Prod.fst).Nodup := by
  unfold Core.add_command
  cases hx : (SpellTree.find c.commands n 0).1 with
  | nil =>
    simp only [hx, List.isEmpty_nil, if_pos]
    rw [List.map_append]
    simp only [List.map_cons, List.map_nil]
    rw [List.nodup_append]
    refine ⟨h, List.nodup_singleton n, ?_⟩
    intro a ha hb
    simp only [List.mem_singleton] at hb
    subst hb
    rw [List.mem_map] at ha
    obtain ⟨p, hp, hpa⟩ := ha
    exact (find_exact_nil_iff c.commands a 0).1 hx p hp hpa
  | cons x xs =>
    simp only [hx]
    simp [error_msg, h]

/-- With pairwise-distinct names, an exact query matches at most one entry. -/
theorem nodup_filter_le_one (cmds : List (String × Nat)) (q : String)
    (h : (cmds.map Prod.fst).Nodup) :
    (cmds.filter (fun p => p.1 = q)).length ≤ 1 := by
  induction cmds with
  | nil => simp
  | cons p l ih =>
    rw [List.map_cons, List.nodup_cons] at h
    by_cases hq : p.1 = q
    · have hnone : l.filter (fun p => p.1 = q) = [] := by
        rw [List.filter_eq_nil_iff]
        intro a ha
        simp only [decide_eq_true_eq]
        intro haq
        apply h.1
        rw [hq, ← haq]
        exact List.mem_map_of_mem Prod.fst ha
      have hstep : List.filter (fun p => decide (p.1 = q)) (p :: l) =
          p :: List.filter (fun p => decide (p.1 = q)) l := by
        simp [List.filter_cons, hq]
      rw [hstep, hnone]
      simp
    · have hstep : List.filter (fun p => decide (p.1 = q)) (p :: l) =
          List.filter (fun p => decide (p.1 = q)) l := by
        simp [List.filter_cons, hq]
      rw [hstep]
      exact ih h.2

/-- C3: every registry reachable by `add_command` calls from the empty
registry has pairwise-distinct names, so every exact lookup returns at most
one entry and the dispatcher's choice of the first exact entry is uniquely
determined. -/
theorem registry_names_unique (regs : List (String × Nat)) (q : String)
    (tol : Nat) :
    ((registryOf regs).commands.map Prod.fst).Nodup ∧
    (SpellTree.find (registryOf regs).commands q tol).1.length ≤ 1 := by
  have hmain : ∀ (rs : List (String × Nat)) (c : Core),
      (c.commands.map Prod.fst).Nodup →
      (((rs.foldl (fun c p => Core.add_command c p.1 p.2) c).commands.map
        Prod.fst)).Nodup := by
    intro rs
    induction rs with
    | nil => intro c hc; exact hc
    | cons r rs ih =>
      intro c hc
      exact ih _ (add_command_nodup c r.1 r.2 hc)
  have hnd : ((registryOf regs).commands.map Prod.fst).Nodup :=
    hmain regs Core.mkDefault (by simp [Core.mkDefault])
  refine ⟨hnd, ?_⟩
  rw [find_fst_eq, List.length_map]
  exact nodup_filter_le_one _ q hnd

/-- Unfolding lemma for `command_not_found` when the similar set is non-empty
and the palette provides slot 5. -/
theorem command_not_found_suggestions (c : Core) (command : String)
    (s0 : String) (rest : List String) (rgb : Nat × Nat × Nat)
    (hsim : (SpellTree.find c.commands command 2).2 = s0 :: rest)
    (hpal : c.color_palette.get? 5 = some rgb) :
    Core.command_not_found c command = some
      { c with stderr := c.stderr
          ++ [Chunk.plain "Error: Execution failed\n",
              Chunk.plain ("Command " ++ command ++ " is not found."),
              Chunk.plain "\n",
              Chunk.plain "Similar command: ", Chunk.colored rgb s0]
          ++ rest.flatMap (fun s => [Chunk.plain ", ", Chunk.colored rgb s])
          ++ [Chunk.plain ".\n"] } := by
  unfold Core.command_not_found
  simp only [error_msg]
  simp only [hsim, hpal]
  simp

/-- C4: a dispatch with no exact match but a non-empty similar set emits the
two not-found lines followed by a single suggestion line listing every
suggestion in rank order, comma-separated and terminated with a period, and
writes nothing to the primary sink (every field but stderr is unchanged). -/
theorem run_not_found_with_suggestions (env : Nat → CmdFunctions) (c : Core)
    (command : String) (args : List String) (s0 : String)
    (rest : List String) (rgb : Nat × Nat × Nat)
    (hexact : (SpellTree.find c.commands command 2).1 = [])
    (hsim : (SpellTree.find c.commands command 2).2 = s0 :: rest)
    (hpal : c.color_palette.get? 5 = some rgb) :
    Core.run env c command args = some
      { c with stderr := c.stderr
          ++ [Chunk.plain "Error: Execution failed\n",
              Chunk.plain ("Command " ++ command ++ " is not found."),
              Chunk.plain "\n",
              Chunk.plain "Similar command: ", Chunk.colored rgb s0]
          ++ rest.flatMap (fun s => [Chunk.plain ", ", Chunk.colored rgb s])
          ++ [Chunk.plain ".\n"] } := by
  unfold Core.run
  rw [hexact]
  exact command_not_found_suggestions c command s0 rest rgb hsim hpal

/-- C4 witness: with only `seek` (alias `s`) registered, `run "seeker" []`
emits exactly the not-found diagnostic followed by `Similar command: seek.`
on the diagnostic sink, the suggestion colored with palette slot 5, while the
primary sink stays empty. -/
theorem run_not_found_with_suggestions_witness :
    Core.run envId coreSeek "seeker" [] = some
      { coreSeek with stderr :=
          [Chunk.plain "Error: Execution failed\n",
           Chunk.plain "Command seeker is not found.",
           Chunk.plain "\n",
           Chunk.plain "Similar command: ",
           Chunk.colored (0x6c, 0x71, 0xc4) "seek",
           Chunk.plain ".\n"] } := by
  have h := run_not_found_with_suggestions envId coreSeek "seeker" []
    "seek" [] (0x6c, 0x71, 0xc4) (by decide) (by decide) (by decide)
  rw [h]
  decide

/-- C5: a dispatch with no exact match and an empty similar set emits only
the two not-found lines, with no trailing suggestion line, and changes
nothing else. -/
theorem run_not_found_no_suggestions (env : Nat → CmdFunctions) (c : Core)
    (command : String) (args : List String)
    (hexact : (SpellTree.find c.commands command 2).1 = [])
    (hsim : (SpellTree.find c.commands command 2).2 = []) :
    Core.run env c command args = some
      { c with stderr := c.stderr
          ++ [Chunk.plain "Error: Execution failed\n",
              Chunk.plain ("Command " ++ command ++ " is not found."),
              Chunk.plain "\n"] } := by
  unfold Core.run
  rw [hexact]
  unfold Core.command_not_found
  simp only [error_msg]
  simp [hsim]

/-- C5 witness: on an empty registry, `run "foo" []` emits exactly the two
not-found lines and no suggestion line. -/
theorem run_not_found_no_suggestions_witness :
    Core.run envId coreEmpty "foo" [] = some
      { coreEmpty with stderr :=
          [Chunk.plain "Error: Execution failed\n",
           Chunk.plain "Command foo is not found.",
           Chunk.plain "\n"] } := by
  have h := run_not_found_no_suggestions envId coreEmpty "foo" []
    (by decide) (by decide)
  rw [h]
  decide

/-- C6: when the command resolves, `run_at` invokes the matched operation's
`run` on a session whose cursor, observed through `get_loc`, equals the
override address `at_`; the returned session carries the pre-call cursor. -/
theorem run_at_op_sees_overridden_loc (env : Nat → CmdFunctions) (c : Core)
    (command : String) (args : List String) (at_ : Nat) (op : Nat)
    (rest : List Nat)
    (h : (SpellTree.find c.commands command 2).1 = op :: rest) :
    Core.run_at env c command args at_ = some
      (Core.set_loc ((env op).run (Core.set_loc c at_) args)
        (Core.get_loc c)) ∧
    Core.get_loc (Core.set_loc c at_) = at_ := by
  constructor
  · unfold Core.run_at Core.run
    have hc : (SpellTree.find (Core.set_loc c at_).commands command 2).1 =
        op :: rest := h
    rw [show ({ c with loc := at_ } : Core) = Core.set_loc c at_ from rfl, hc]
    rfl
  · rfl

/-- C6 witness: with `seek` registered and an operation that reads the
cursor, `run_at` at address 1280 hands the operation a session whose
`get_loc` is 1280 and restores the pre-call cursor 7 afterwards. -/
theorem run_at_op_sees_overridden_loc_witness :
    Core.run_at envClobber coreSeek "seek" [] 1280 = some
      (Core.set_loc ((envClobber 4).run (Core.set_loc coreSeek 1280) [])
        (Core.get_loc coreSeek)) ∧
    Core.get_loc (Core.set_loc coreSeek 1280) = 1280 :=
  run_at_op_sees_overridden_loc envClobber coreSeek "seek" [] 1280 4 []
    (by decide)

/-- C7: `help` resolves through the identical `find` call (maximum distance
2) and exact-match test as `run`: on a non-matching name it produces exactly
the state `run` would produce (hence the same diagnostics), and on a matching
name it invokes the matched operation's `help` entry point. -/
theorem help_matches_run (env : Nat → CmdFunctions) (c : Core)
    (command : String) :
    ((SpellTree.find c.commands command 2).1 = [] →
      ∀ args, Core.help env c command = Core.run env c command args) ∧
    (∀ op rest, (SpellTree.find c.commands command 2).1 = op :: rest →
      Core.help env c command = some ((env op).help c)) := by
  constructor
  · intro h args
    unfold Core.help Core.run
    rw [h]
  · intro op rest h
    unfold Core.help
    rw [h]

/-- C7 witness: on the `seek`-only session, `help` of the unmatched name
`zzzzz` coincides with `run` of the same name, and `help "seek"` invokes the
`help` entry point of the operation bound to `seek`. -/
theorem help_matches_run_witness :
    Core.help envId coreSeek "zzzzz" = Core.run envId coreSeek "zzzzz" [] ∧
    Core.help envId coreSeek "seek" = some ((envId 4).help coreSeek) :=
  ⟨(help_matches_run envId coreSeek "zzzzz").1 (by decide) [],
   (help_matches_run envId coreSeek "seek").2 4 [] (by decide)⟩

/-- With at least six palette entries, `command_not_found` always returns
normally. -/
theorem command_not_found_isSome (c : Core) (command : String)
    (hpal : 5 < c.color_palette.length) :
    (Core.command_not_found c command).isSome := by
  obtain ⟨rgb, hrgb⟩ : ∃ rgb, c.color_palette.get? 5 = some rgb := by
    cases hg : c.color_palette.get? 5 with
    | some r => exact ⟨r, rfl⟩
    | none =>
      have := List.get?_eq_none.1 hg
      omega
  cases hsim : (SpellTree.find c.commands command 2).2 with
  | nil =>
    unfold Core.command_not_found
    simp only [error_msg]
    simp [hsim]
  | cons s0 rest =>
    rw [command_not_found_suggestions c command s0 rest rgb hsim hrgb]
    rfl

/-- C8: neither a duplicate registration nor a command-not-found dispatch
aborts: `run`, `run_at` and `help` on an unresolvable name return normally
(given the palette the session is always initialized with), and
`add_command` always returns a session whose registry either kept the old
bindings or gained exactly the requested one — failures surface only as
diagnostic text, never as an error value. -/
theorem failures_return_normally (env : Nat → CmdFunctions) (c : Core)
    (command name : String) (args : List String) (at_ f : Nat)
    (hpal : 5 < c.color_palette.length)
    (hexact : (SpellTree.find c.commands command 2).1 = []) :
    (Core.run env c command args).isSome ∧
    (Core.run_at env c command args at_).isSome ∧
    (Core.help env c command).isSome ∧
    ((Core.add_command c name f).commands = c.commands ∨
     (Core.add_command c name f).commands = c.commands ++ [(name, f)]) := by
  have hrun2 : ∀ c' : Core, c'.commands = c.commands →
      c'.color_palette = c.color_palette →
      (Core.run env c' command args).isSome := by
    intro c' hcmd hpalette
    unfold Core.run
    rw [show (SpellTree.find c'.commands command 2).1 = [] from hcmd ▸ hexact]
    exact command_not_found_isSome c' command (hpalette ▸ hpal)
  refine ⟨hrun2 c rfl rfl, ?_, ?_, ?_⟩
  · unfold Core.run_at
    have h2 := hrun2 { c with loc := at_ } rfl rfl
    cases hr : Core.run env { c with loc := at_ } command args with
    | none => rw [hr] at h2; cases h2
    | some c2 => rfl
  · unfold Core.help
    rw [hexact]
    exact command_not_found_isSome c command hpal
  · unfold Core.add_command
    cases hx : (SpellTree.find c.commands name 0).1 with
    | nil => right; simp
    | cons x xs => left; simp [error_msg]

/-- C8 witness: on the `seek`-only session, dispatching the unresolvable
name `zzzzz` through `run`, `run_at` and `help` returns normally, and
re-registering `s` returns with the registry intact. -/
theorem failures_return_normally_witness :
    (Core.run envId coreSeek "zzzzz" []).isSome ∧
    (Core.run_at envId coreSeek "zzzzz" [] 3).isSome ∧
    (Core.help envId coreSeek "zzzzz").isSome ∧
    ((Core.add_command coreSeek "s" 1).commands = coreSeek.commands ∨
     (Core.add_command coreSeek "s" 1).commands =
       coreSeek.commands ++ [("s", 1)]) :=
  failures_return_normally envId coreSeek "zzzzz" "s" [] 3 1 (by decide)
    (by decide)

/-- C9: every suggestion in a not-found listing is colored from the one fixed
palette slot of index 5 (the same slot for the first suggestion and for every
further one, on any session state), rendering the line requires the palette
to contain an entry at index 5 (otherwise the call cannot complete), and the
session initialization places entry (0x6c, 0x71, 0xc4) at that slot. -/
theorem suggestion_color_palette_slot_five (c : Core) (command : String)
    (s0 : String) (rest : List String)
    (hsim : (SpellTree.find c.commands command 2).2 = s0 :: rest) :
    (5 < c.color_palette.length →
      Core.command_not_found c command = some
        { c with stderr := c.stderr
            ++ [Chunk.plain "Error: Execution failed\n",
                Chunk.plain ("Command " ++ command ++ " is not found."),
                Chunk.plain "\n",
                Chunk.plain "Similar command: ",
                Chunk.colored (c.color_palette.getD 5 (0, 0, 0)) s0]
            ++ rest.flatMap (fun s =>
                [Chunk.plain ", ",
                 Chunk.colored (c.color_palette.getD 5 (0, 0, 0)) s])
            ++ [Chunk.plain ".\n"] }) ∧
    (c.color_palette.length ≤ 5 →
      Core.command_not_found c command = none) ∧
    Core.new.color_palette.get? 5 = some (0x6c, 0x71, 0xc4) := by
  refine ⟨?_, ?_, by decide⟩
  · intro h5
    obtain ⟨rgb, hrgb⟩ : ∃ rgb, c.color_palette.get? 5 = some rgb := by
      cases hg : c.color_palette.get? 5 with
      | some r => exact ⟨r, rfl⟩
      | none =>
        have := List.get?_eq_none.1 hg
        omega
    have hD : c.color_palette.getD 5 (0, 0, 0) = rgb := by
      unfold List.getD
      rw [hrgb]
      rfl
    rw [hD]
    exact command_not_found_suggestions c command s0 rest rgb hsim hrgb
  · intro hle
    have hnone : c.color_palette.get? 5 = none := List.get?_eq_none.2 hle
    rw [List.get?_eq_getElem?] at hnone
    unfold Core.command_not_found
    simp only [error_msg]
    simp [hsim, hnone]

/-- C9 witness: on the `seek`-only session the suggestion `seek` is colored
with palette entry 5, namely (0x6c, 0x71, 0xc4); on the same registry with an
empty palette the suggestion path cannot complete. -/
theorem suggestion_color_palette_slot_five_witness :
    Core.command_not_found coreSeek "seeker" = some
      { coreSeek with stderr :=
          [Chunk.plain "Error: Execution failed\n",
           Chunk.plain "Command seeker is not found.",
           Chunk.plain "\n",
           Chunk.plain "Similar command: ",
           Chunk.colored (0x6c, 0x71, 0xc4) "seek",
           Chunk.plain ".\n"] } ∧
    Core.command_not_found coreNoPal "seeker" = none := by
  constructor
  · have h := (suggestion_color_palette_slot_five coreSeek "seeker" "seek" []
      (by decide)).1 (by decide)
    rw [h]
    decide
  · exact (suggestion_color_palette_slot_five coreNoPal "seeker" "seek" []
      (by decide)).2.1 (by decide)
